import Mathlib

/-!
Shallow embedding of the Action App form/host synchronization layer of this
repository: the useActionContext hook (hooks/useActionContext.ts), the SDK
client module (lib/uipath.ts) and the NumberControl change handler
(components/action/ActionFormField.tsx), together with theorems checking the
specified protocol properties against these definitions.
-/

namespace ActionApp

/-- Dynamic field values held in the form snapshot.  JavaScript values are
untyped at rest; the constructors cover the value shapes the embedded code
produces: strings, finite numbers, the NaN marker, booleans and undefined. -/
inductive Value where
  | str (s : String)
  | num (q : ℚ)
  | bool (b : Bool)
  | nan
  | undef
deriving DecidableEq

/-- A form snapshot (an ActionFormData object), observed through key lookup:
a key that is absent reads as none. -/
abbrev ActionFormData := String → Option Value

/-- JavaScript object spread with one computed key, as in
`{ ...prev, [fieldName]: value }` (useActionContext.ts line 183). -/
def ActionFormData.set (m : ActionFormData) (k : String) (v : Value) : ActionFormData :=
  fun k2 => if k2 = k then some v else m k2

/-- JavaScript object spread of an update object, as in `{ ...prev, ...data }`
(useActionContext.ts line 192); the update object is given as a key/value
list, later entries overriding earlier ones. -/
def ActionFormData.merge (m : ActionFormData) (upd : List (String × Value)) : ActionFormData :=
  upd.foldl (fun acc kv => acc.set kv.1 kv.2) m

/-- The envelope pushed by Action Center (the ActionCenterData payload).
Every field the hook reads off the envelope may be missing at runtime, so
each one is an Option. -/
structure ActionCenterData where
  data : Option ActionFormData := none
  isReadOnly : Option Bool := none
  theme : Option String := none
  language : Option String := none
  baseUrl : Option String := none
  orgName : Option String := none
  tenantName : Option String := none
  token : Option String := none
  newToken : Option String := none
  newTheme : Option String := none
  newLanguage : Option String := none

/-- Configuration of the UiPath SDK client (lib/uipath.ts). -/
structure SdkConfig where
  baseUrl : String
  orgName : String
  tenantName : String
  secret : String
deriving DecidableEq

/-- State of the module-level SDK client of lib/uipath.ts.  The generation
field counts how many times a fresh client object was constructed
(`sdk = new UiPath(...)`), so that an in-place token update is
distinguishable from a full reinitialization. -/
structure SdkState where
  config : SdkConfig
  sdkInitialized : Bool
  generation : Nat
deriving DecidableEq

/-- initializeSdk of lib/uipath.ts: replaces the client with a freshly
constructed one carrying the given config and sets the sdkInitialized flag. -/
def initializeSdk (config : SdkConfig) (s : SdkState) : SdkState :=
  { config := config, sdkInitialized := true, generation := s.generation + 1 }

/-- updateToken of lib/uipath.ts: `sdk.updateToken(newToken)` mutates the
existing client in place, leaving everything else as it is. -/
def updateToken (newToken : String) (s : SdkState) : SdkState :=
  { s with config := { s.config with secret := newToken } }

/-- The state visible to one useActionContext session: its useState cells
(taskData, formData, theme, language, hasActionCenterData), its two refs and
the module-level SDK client state. -/
structure SessionState where
  taskData : Option ActionCenterData
  formData : ActionFormData
  theme : Option String
  language : String
  hasActionCenterData : Bool
  initialDataRef : ActionFormData
  isInitializedRef : Bool
  sdk : SdkState

/-- The isReadOnly value the hook exposes: `taskData?.isReadOnly ?? false`
(useActionContext.ts line 220). -/
def SessionState.isReadOnly (s : SessionState) : Bool :=
  (s.taskData.bind (fun d => d.isReadOnly)).getD false

/-- Hook state at mount: the useState initializers and the initial value of
initialDataRef from useActionContext, over a given SDK client state. -/
def initState (initialData : ActionFormData) (sdk0 : SdkState) : SessionState :=
  { taskData := none
    formData := initialData
    theme := some "Light"
    language := "en"
    hasActionCenterData := false
    initialDataRef := initialData
    isInitializedRef := false
    sdk := sdk0 }

/-- JavaScript truthiness of an optional string: null, undefined and the
empty string are falsy. -/
def truthy : Option String → Bool
  | none => false
  | some s => !(s == "")

/-- The guard `data.baseUrl && data.orgName && data.tenantName && data.token`
(useActionContext.ts line 139). -/
def credsTruthy (d : ActionCenterData) : Bool :=
  truthy d.baseUrl && truthy d.orgName && truthy d.tenantName && truthy d.token

/-- The config object the envelope callback passes to initializeSdk. -/
def credConfig (d : ActionCenterData) : SdkConfig :=
  { baseUrl := d.baseUrl.getD ""
    orgName := d.orgName.getD ""
    tenantName := d.tenantName.getD ""
    secret := d.token.getD "" }

/-- Statement `setTaskData(data)` of the envelope callback. -/
def stepTaskData (d : ActionCenterData) (s : SessionState) : SessionState :=
  { s with taskData := some d }

/-- Statement `if (data.baseUrl && ... && data.token) initializeSdk({...})`
of the envelope callback. -/
def stepCreds (d : ActionCenterData) (s : SessionState) : SessionState :=
  if credsTruthy d then { s with sdk := initializeSdk (credConfig d) s.sdk } else s

/-- Statement `if (data.newToken) updateToken(data.newToken)` of the envelope
callback. -/
def stepNewToken (d : ActionCenterData) (s : SessionState) : SessionState :=
  match d.newToken with
  | some t => if t = "" then s else { s with sdk := updateToken t s.sdk }
  | none => s

/-- Statement `setTheme((data.newTheme ?? data.theme) as Theme)` of the
envelope callback. -/
def stepTheme (d : ActionCenterData) (s : SessionState) : SessionState :=
  { s with theme := d.newTheme <|> d.theme }

/-- Statement `setLanguage(data.newLanguage ?? data.language ?? "en")` of the
envelope callback. -/
def stepLanguage (d : ActionCenterData) (s : SessionState) : SessionState :=
  { s with language := (d.newLanguage <|> d.language).getD "en" }

/-- Statement `if (data.data) { setFormData(data.data);
initialDataRef.current = data.data }` of the envelope callback. -/
def stepFormData (d : ActionCenterData) (s : SessionState) : SessionState :=
  match d.data with
  | some fd => { s with formData := fd, initialDataRef := fd }
  | none => s

/-- Statement `setHasActionCenterData(true)`, deliberately the last statement
of the envelope callback. -/
def stepFlag (s : SessionState) : SessionState :=
  { s with hasActionCenterData := true }

/-- The statements of the getTaskDetailsFromActionCenter callback
(useActionContext.ts lines 132-168), in source order. -/
def envelopeSteps (d : ActionCenterData) : List (SessionState → SessionState) :=
  [stepTaskData d, stepCreds d, stepNewToken d, stepTheme d, stepLanguage d,
   stepFormData d, stepFlag]

/-- Running the whole envelope callback on one received envelope. -/
def applyEnvelope (d : ActionCenterData) (s : SessionState) : SessionState :=
  (envelopeSteps d).foldl (fun st f => f st) s

/-- The states an observer can see around the envelope callback: the state
before it runs and the state after each of its statements. -/
def envelopeObservables (d : ActionCenterData) (s : SessionState) : List SessionState :=
  (envelopeSteps d).scanl (fun st f => f st) s

/-- Outbound calls delivered through the SDK, plus the alert fallback. -/
inductive Effect where
  | subscribe
  | ready
  | dataChanged (d : ActionFormData)
  | taskCompleted (outcome : String) (d : ActionFormData)
  | alertFallback (outcome : String) (d : ActionFormData)

/-- Whether an effect is the envelope subscription registration. -/
def Effect.isSubscribe : Effect → Bool
  | .subscribe => true
  | _ => false

/-- Whether an effect is the one-shot ready signal. -/
def Effect.isReady : Effect → Bool
  | .ready => true
  | _ => false

/-- Whether an effect is the local alert fallback of completeTask. -/
def Effect.isFallback : Effect → Bool
  | .alertFallback _ _ => true
  | _ => false

/-- notifyDataChanged (useActionContext.ts lines 117-123):
`try { sdk.taskEvents.dataChanged(data) } catch {}`.  When no host is
attached the call throws and the failure is swallowed, so nothing is
delivered; the host flag records whether Action Center is attached. -/
def notifyDataChanged (host : Bool) (d : ActionFormData) : List Effect :=
  if host then [Effect.dataChanged d] else []

/-- updateField (useActionContext.ts lines 181-187): merge one key into the
snapshot and notify with the full updated snapshot. -/
def updateField (host : Bool) (s : SessionState) (fieldName : String) (v : Value) :
    SessionState × List Effect :=
  let updated := s.formData.set fieldName v
  ({ s with formData := updated }, notifyDataChanged host updated)

/-- updateFormData (useActionContext.ts lines 190-196): merge several keys
into the snapshot and notify with the full updated snapshot. -/
def updateFormData (host : Bool) (s : SessionState) (upd : List (String × Value)) :
    SessionState × List Effect :=
  let updated := s.formData.merge upd
  ({ s with formData := updated }, notifyDataChanged host updated)

/-- completeTask (useActionContext.ts lines 199-209):
`try { sdk.taskEvents.completeTask(outcome, formData) } catch { alert(...) }`.
The catch branch runs the alert fallback with the same outcome and
snapshot. -/
def completeTask (host : Bool) (s : SessionState) (outcome : String) :
    SessionState × List Effect :=
  if host then (s, [Effect.taskCompleted outcome s.formData])
  else (s, [Effect.alertFallback outcome s.formData])

/-- resetForm (useActionContext.ts lines 212-215):
`setFormData(initialDataRef.current); notifyDataChanged(initialDataRef.current)`. -/
def resetForm (host : Bool) (s : SessionState) : SessionState × List Effect :=
  ({ s with formData := s.initialDataRef }, notifyDataChanged host s.initialDataRef)

/-- The mount effect (useActionContext.ts lines 126-178): an early return on
isInitializedRef guards it; on its first run it registers the envelope
subscription and signals readiness, both inside a try whose failure is caught
when no host is attached. -/
def mountEffect (host : Bool) (s : SessionState) : SessionState × List Effect :=
  if s.isInitializedRef then (s, [])
  else ({ s with isInitializedRef := true },
        if host then [Effect.subscribe, Effect.ready] else [])

/-- One externally triggered interaction in a session. -/
inductive Event where
  | envelope (d : ActionCenterData)
  | setField (fieldName : String) (v : Value)
  | setFields (upd : List (String × Value))
  | reset
  | complete (outcome : String)

/-- Applying one event to the session state (the state component of each
operation; outbound effects are dropped here). -/
def stepEvent (host : Bool) (s : SessionState) : Event → SessionState
  | .envelope d => applyEnvelope d s
  | .setField k v => (updateField host s k v).1
  | .setFields upd => (updateFormData host s upd).1
  | .reset => (resetForm host s).1
  | .complete o => (completeTask host s o).1

/-- Running a session trace event by event. -/
def run (host : Bool) (s : SessionState) : List Event → SessionState
  | [] => s
  | e :: es => run host (stepEvent host s e) es

/-- Last-write-wins lookup over a list of field writes. -/
def lastWrite (ws : List (String × Value)) (k : String) : Option Value :=
  ws.foldl (fun acc kv => if kv.1 = k then some kv.2 else acc) none

/-- Stated from the specified property, for comparison with the code: a base
snapshot overlaid with a list of writes applied in order, last write winning
per key, all other keys untouched. -/
def overlaySpec (base : ActionFormData) (ws : List (String × Value)) : ActionFormData :=
  fun k =>
    match lastWrite ws k with
    | some v => some v
    | none => base k

/-- Folding a sequence of updateField calls over a session state. -/
def applyWrites (host : Bool) (s : SessionState) (ws : List (String × Value)) :
    SessionState :=
  ws.foldl (fun st kv => (updateField host st kv.1 kv.2).1) s

/-- The baseline resetForm restores: the data of the last envelope in the
trace that carried data, else the mount-time initial data. -/
def lastBaseline (d0 : ActionFormData) : List Event → ActionFormData
  | [] => d0
  | Event.envelope d :: es => lastBaseline (d.data.getD d0) es
  | _ :: es => lastBaseline d0 es

/-- The last envelope received along a trace, if any, threaded the same way
run threads the state. -/
def lastEnvelope (acc : Option ActionCenterData) : List Event → Option ActionCenterData
  | [] => acc
  | Event.envelope d :: es => lastEnvelope (some d) es
  | _ :: es => lastEnvelope acc es

/-- Numeric value of a digit list read left to right. -/
def digitsToNat (ds : List Char) : ℕ :=
  ds.foldl (fun acc c => acc * 10 + (c.toNat - 48)) 0

/-- Split off the longest leading run of decimal digits. -/
def takeDigits (cs : List Char) : List Char × List Char :=
  (cs.takeWhile Char.isDigit, cs.dropWhile Char.isDigit)

/-- Optional leading sign: the sign factor and the remaining characters. -/
def takeSign : List Char → ℤ × List Char
  | '-' :: rest => (-1, rest)
  | '+' :: rest => (1, rest)
  | cs => (1, cs)

/-- JavaScript `parseInt(s, 10)`: skip leading whitespace, optional sign,
then the longest digit run; NaN (none) when no digit follows. -/
def parseIntJS (s : String) : Option ℤ :=
  let cs := s.toList.dropWhile Char.isWhitespace
  let sc := takeSign cs
  let dr := takeDigits sc.2
  if dr.1.isEmpty then none else some (sc.1 * digitsToNat dr.1)

/-- Exponent digits after the e or E marker: optional sign then digits;
a malformed exponent is ignored (read as 0), as in JavaScript. -/
def expDigits (cs : List Char) : ℤ :=
  let sc := takeSign cs
  let dr := takeDigits sc.2
  if dr.1.isEmpty then 0 else sc.1 * digitsToNat dr.1

/-- Optional exponent suffix accepted by parseFloat. -/
def expPart : List Char → ℤ
  | 'e' :: rest => expDigits rest
  | 'E' :: rest => expDigits rest
  | _ => 0

/-- JavaScript `parseFloat(s)` restricted to its finite decimal fragment:
skip leading whitespace, optional sign, integer digits, optional fraction
digits, optional exponent; NaN (none) when the mantissa has no digit.  The
special Infinity literal is not modelled; no claim touches it. -/
def parseFloatJS (s : String) : Option ℚ :=
  let cs := s.toList.dropWhile Char.isWhitespace
  let sc := takeSign cs
  let ip := takeDigits sc.2
  match ip.2 with
  | '.' :: afterDot =>
      let fp := takeDigits afterDot
      if ip.1.isEmpty && fp.1.isEmpty then none
      else
        some ((sc.1 : ℚ) *
          ((digitsToNat ip.1 : ℚ) + (digitsToNat fp.1 : ℚ) / ((10 : ℚ) ^ fp.1.length)) *
          (10 : ℚ) ^ expPart fp.2)
  | rest =>
      if ip.1.isEmpty then none
      else some ((sc.1 : ℚ) * (digitsToNat ip.1 : ℚ) * (10 : ℚ) ^ expPart rest)

/-- The onChange handler of NumberControl (ActionFormField.tsx lines
195-202).  A result of some e means onChange was called with e; none would
mean onChange was not called, which this handler never produces: empty input
reports undefined, any other input the parse result, NaN included. -/
def numberControlChange (isInteger : Bool) (val : String) : Option Value :=
  if val = "" then some Value.undef
  else if isInteger then
    some (match parseIntJS val with
          | some n => Value.num (n : ℚ)
          | none => Value.nan)
  else
    some (match parseFloatJS val with
          | some q => Value.num q
          | none => Value.nan)

/-- The all-absent form snapshot, used as a concrete fixture. -/
def emptyData : ActionFormData := fun _ => none

/-- A concrete mount-time SDK client state. -/
def sdkStart : SdkState :=
  { config := { baseUrl := "", orgName := "", tenantName := "", secret := "" }
    sdkInitialized := false
    generation := 0 }

/-- A concrete freshly mounted session. -/
def startState : SessionState := initState emptyData sdkStart

/-- A concrete envelope that only marks the task read-only. -/
def roEnvelope : ActionCenterData := { isReadOnly := some true }

/-- The concrete session state after receiving roEnvelope. -/
def roState : SessionState := applyEnvelope roEnvelope startState

/-- A concrete host snapshot with one field. -/
def aliceData : ActionFormData :=
  fun k => if k = "patientName" then some (Value.str "Alice") else none

/-- A concrete envelope carrying aliceData. -/
def aliceEnvelope : ActionCenterData := { data := some aliceData }

/-- A concrete envelope carrying only a refreshed token. -/
def tokenEnvelope : ActionCenterData := { newToken := some "t2" }

/-- A concrete write sequence with a repeated key. -/
def exampleWrites : List (String × Value) :=
  [("a", Value.num 1), ("b", Value.str "x"), ("a", Value.num 2)]

/-- The SDK client state the envelope callback leaves behind: a conditional
reinitialization from full credentials followed by a conditional in-place
token refresh, exactly the two guarded statements of the callback. -/
def sdkAfterEnvelope (d : ActionCenterData) (g : SdkState) : SdkState :=
  let g1 := if credsTruthy d then initializeSdk (credConfig d) g else g
  match d.newToken with
  | some t => if t = "" then g1 else updateToken t g1
  | none => g1

/-! Projection lemmas for the envelope callback statements. -/

@[simp] theorem stepTaskData_hasData (d : ActionCenterData) (s : SessionState) :
    (stepTaskData d s).hasActionCenterData = s.hasActionCenterData := rfl

@[simp] theorem stepTaskData_formData (d : ActionCenterData) (s : SessionState) :
    (stepTaskData d s).formData = s.formData := rfl

@[simp] theorem stepTaskData_taskData (d : ActionCenterData) (s : SessionState) :
    (stepTaskData d s).taskData = some d := rfl

@[simp] theorem stepTaskData_initialDataRef (d : ActionCenterData) (s : SessionState) :
    (stepTaskData d s).initialDataRef = s.initialDataRef := rfl

@[simp] theorem stepTaskData_sdk (d : ActionCenterData) (s : SessionState) :
    (stepTaskData d s).sdk = s.sdk := rfl

@[simp] theorem stepCreds_hasData (d : ActionCenterData) (s : SessionState) :
    (stepCreds d s).hasActionCenterData = s.hasActionCenterData := by
  unfold stepCreds; split <;> rfl

@[simp] theorem stepCreds_formData (d : ActionCenterData) (s : SessionState) :
    (stepCreds d s).formData = s.formData := by
  unfold stepCreds; split <;> rfl

@[simp] theorem stepCreds_taskData (d : ActionCenterData) (s : SessionState) :
    (stepCreds d s).taskData = s.taskData := by
  unfold stepCreds; split <;> rfl

@[simp] theorem stepCreds_initialDataRef (d : ActionCenterData) (s : SessionState) :
    (stepCreds d s).initialDataRef = s.initialDataRef := by
  unfold stepCreds; split <;> rfl

theorem stepCreds_sdk (d : ActionCenterData) (s : SessionState) :
    (stepCreds d s).sdk =
      (if credsTruthy d then initializeSdk (credConfig d) s.sdk else s.sdk) := by
  unfold stepCreds; split <;> rfl

@[simp] theorem stepNewToken_hasData (d : ActionCenterData) (s : SessionState) :
    (stepNewToken d s).hasActionCenterData = s.hasActionCenterData := by
  unfold stepNewToken
  rcases d.newToken with _ | t
  · rfl
  · dsimp only; split <;> rfl

@[simp] theorem stepNewToken_formData (d : ActionCenterData) (s : SessionState) :
    (stepNewToken d s).formData = s.formData := by
  unfold stepNewToken
  rcases d.newToken with _ | t
  · rfl
  · dsimp only; split <;> rfl

@[simp] theorem stepNewToken_taskData (d : ActionCenterData) (s : SessionState) :
    (stepNewToken d s).taskData = s.taskData := by
  unfold stepNewToken
  rcases d.newToken with _ | t
  · rfl
  · dsimp only; split <;> rfl

@[simp] theorem stepNewToken_initialDataRef (d : ActionCenterData) (s : SessionState) :
    (stepNewToken d s).initialDataRef = s.initialDataRef := by
  unfold stepNewToken
  rcases d.newToken with _ | t
  · rfl
  · dsimp only; split <;> rfl

theorem stepNewToken_sdk (d : ActionCenterData) (s : SessionState) :
    (stepNewToken d s).sdk =
      (match d.newToken with
       | some t => if t = "" then s.sdk else updateToken t s.sdk
       | none => s.sdk) := by
  unfold stepNewToken
  rcases d.newToken with _ | t
  · rfl
  · dsimp only; split <;> rfl

@[simp] theorem stepTheme_hasData (d : ActionCenterData) (s : SessionState) :
    (stepTheme d s).hasActionCenterData = s.hasActionCenterData := rfl

@[simp] theorem stepTheme_formData (d : ActionCenterData) (s : SessionState) :
    (stepTheme d s).formData = s.formData := rfl

@[simp] theorem stepTheme_taskData (d : ActionCenterData) (s : SessionState) :
    (stepTheme d s).taskData = s.taskData := rfl

@[simp] theorem stepTheme_initialDataRef (d : ActionCenterData) (s : SessionState) :
    (stepTheme d s).initialDataRef = s.initialDataRef := rfl

@[simp] theorem stepTheme_sdk (d : ActionCenterData) (s : SessionState) :
    (stepTheme d s).sdk = s.sdk := rfl

@[simp] theorem stepLanguage_hasData (d : ActionCenterData) (s : SessionState) :
    (stepLanguage d s).hasActionCenterData = s.hasActionCenterData := rfl

@[simp] theorem stepLanguage_formData (d : ActionCenterData) (s : SessionState) :
    (stepLanguage d s).formData = s.formData := rfl

@[simp] theorem stepLanguage_taskData (d : ActionCenterData) (s : SessionState) :
    (stepLanguage d s).taskData = s.taskData := rfl

@[simp] theorem stepLanguage_initialDataRef (d : ActionCenterData) (s : SessionState) :
    (stepLanguage d s).initialDataRef = s.initialDataRef := rfl

@[simp] theorem stepLanguage_sdk (d : ActionCenterData) (s : SessionState) :
    (stepLanguage d s).sdk = s.sdk := rfl

@[simp] theorem stepFormData_hasData (d : ActionCenterData) (s : SessionState) :
    (stepFormData d s).hasActionCenterData = s.hasActionCenterData := by
  unfold stepFormData
  rcases d.data with _ | fd <;> rfl

@[simp] theorem stepFormData_formData (d : ActionCenterData) (s : SessionState) :
    (stepFormData d s).formData = d.data.getD s.formData := by
  unfold stepFormData
  rcases d.data with _ | fd <;> rfl

@[simp] theorem stepFormData_taskData (d : ActionCenterData) (s : SessionState) :
    (stepFormData d s).taskData = s.taskData := by
  unfold stepFormData
  rcases d.data with _ | fd <;> rfl

@[simp] theorem stepFormData_initialDataRef (d : ActionCenterData) (s : SessionState) :
    (stepFormData d s).initialDataRef = d.data.getD s.initialDataRef := by
  unfold stepFormData
  rcases d.data with _ | fd <;> rfl

@[simp] theorem stepFormData_sdk (d : ActionCenterData) (s : SessionState) :
    (stepFormData d s).sdk = s.sdk := by
  unfold stepFormData
  rcases d.data with _ | fd <;> rfl

@[simp] theorem stepFlag_hasData (s : SessionState) :
    (stepFlag s).hasActionCenterData = true := rfl

@[simp] theorem stepFlag_formData (s : SessionState) :
    (stepFlag s).formData = s.formData := rfl

@[simp] theorem stepFlag_taskData (s : SessionState) :
    (stepFlag s).taskData = s.taskData := rfl

@[simp] theorem stepFlag_initialDataRef (s : SessionState) :
    (stepFlag s).initialDataRef = s.initialDataRef := rfl

@[simp] theorem stepFlag_sdk (s : SessionState) :
    (stepFlag s).sdk = s.sdk := rfl

/-- The envelope callback written as a plain composition of its statements. -/
theorem applyEnvelope_eq (d : ActionCenterData) (s : SessionState) :
    applyEnvelope d s =
      stepFlag (stepFormData d (stepLanguage d (stepTheme d
        (stepNewToken d (stepCreds d (stepTaskData d s)))))) := rfl

@[simp] theorem applyEnvelope_taskData (d : ActionCenterData) (s : SessionState) :
    (applyEnvelope d s).taskData = some d := by
  rw [applyEnvelope_eq]; simp

@[simp] theorem applyEnvelope_formData (d : ActionCenterData) (s : SessionState) :
    (applyEnvelope d s).formData = d.data.getD s.formData := by
  rw [applyEnvelope_eq]; simp

@[simp] theorem applyEnvelope_initialDataRef (d : ActionCenterData) (s : SessionState) :
    (applyEnvelope d s).initialDataRef = d.data.getD s.initialDataRef := by
  rw [applyEnvelope_eq]; simp

@[simp] theorem applyEnvelope_hasData (d : ActionCenterData) (s : SessionState) :
    (applyEnvelope d s).hasActionCenterData = true := by
  rw [applyEnvelope_eq]; simp

theorem applyEnvelope_sdk (d : ActionCenterData) (s : SessionState) :
    (applyEnvelope d s).sdk = sdkAfterEnvelope d s.sdk := by
  rw [applyEnvelope_eq]
  simp only [stepFlag_sdk, stepFormData_sdk, stepLanguage_sdk, stepTheme_sdk]
  rw [stepNewToken_sdk, sdkAfterEnvelope, stepCreds_sdk]
  simp only [stepTaskData_sdk]

/-! Projection lemmas for the operations the hook exposes. -/

@[simp] theorem updateField_fst_formData (host : Bool) (s : SessionState)
    (k : String) (v : Value) :
    (updateField host s k v).1.formData = s.formData.set k v := rfl

@[simp] theorem updateField_fst_taskData (host : Bool) (s : SessionState)
    (k : String) (v : Value) :
    (updateField host s k v).1.taskData = s.taskData := rfl

@[simp] theorem updateField_fst_initialDataRef (host : Bool) (s : SessionState)
    (k : String) (v : Value) :
    (updateField host s k v).1.initialDataRef = s.initialDataRef := rfl

@[simp] theorem updateFormData_fst_formData (host : Bool) (s : SessionState)
    (upd : List (String × Value)) :
    (updateFormData host s upd).1.formData = s.formData.merge upd := rfl

@[simp] theorem updateFormData_fst_taskData (host : Bool) (s : SessionState)
    (upd : List (String × Value)) :
    (updateFormData host s upd).1.taskData = s.taskData := rfl

@[simp] theorem updateFormData_fst_initialDataRef (host : Bool) (s : SessionState)
    (upd : List (String × Value)) :
    (updateFormData host s upd).1.initialDataRef = s.initialDataRef := rfl

@[simp] theorem resetForm_fst_formData (host : Bool) (s : SessionState) :
    (resetForm host s).1.formData = s.initialDataRef := rfl

@[simp] theorem resetForm_fst_taskData (host : Bool) (s : SessionState) :
    (resetForm host s).1.taskData = s.taskData := rfl

@[simp] theorem resetForm_fst_initialDataRef (host : Bool) (s : SessionState) :
    (resetForm host s).1.initialDataRef = s.initialDataRef := rfl

@[simp] theorem completeTask_fst (host : Bool) (s : SessionState) (o : String) :
    (completeTask host s o).1 = s := by
  unfold completeTask; split <;> rfl

/-! Invariants of whole session traces. -/

/-- The initialDataRef cell along a trace always holds the baseline of the
last data-carrying envelope, or the mount-time initial data before any. -/
theorem run_initialDataRef (host : Bool) (s : SessionState) (es : List Event) :
    (run host s es).initialDataRef = lastBaseline s.initialDataRef es := by
  induction es generalizing s with
  | nil => rfl
  | cons e es ih =>
    cases e with
    | envelope d =>
      show (run host (applyEnvelope d s) es).initialDataRef =
        lastBaseline (d.data.getD s.initialDataRef) es
      rw [ih, applyEnvelope_initialDataRef]
    | setField k v => rw [run, ih]; rfl
    | setFields upd => rw [run, ih]; rfl
    | reset => rw [run, ih]; rfl
    | complete o => rw [run, ih]; simp [stepEvent, lastBaseline]

/-- The taskData cell along a trace always holds the last received envelope;
no local operation ever writes it. -/
theorem run_taskData (host : Bool) (s : SessionState) (es : List Event) :
    (run host s es).taskData = lastEnvelope s.taskData es := by
  induction es generalizing s with
  | nil => rfl
  | cons e es ih =>
    cases e with
    | envelope d =>
      show (run host (applyEnvelope d s) es).taskData = lastEnvelope (some d) es
      rw [ih, applyEnvelope_taskData]
    | setField k v => rw [run, ih]; rfl
    | setFields upd => rw [run, ih]; rfl
    | reset => rw [run, ih]; rfl
    | complete o => rw [run, ih]; simp [stepEvent, lastEnvelope]

/-- C5: completeTask pairs the outcome with the current full snapshot.  With
a host attached it delivers exactly that pair; with no host the caught
failure runs the alert fallback exactly once, carrying the literal outcome
string and the current snapshot.  The session state is unchanged either way,
and the operation is a total function, so no error reaches the caller. -/
theorem c5_completeTask_fallback (host : Bool) (s : SessionState) (outcome : String) :
    completeTask host s outcome =
      (s, [if host then Effect.taskCompleted outcome s.formData
           else Effect.alertFallback outcome s.formData]) ∧
    (completeTask false s outcome).2.countP Effect.isFallback = 1 ∧
    (completeTask true s outcome).2.countP Effect.isFallback = 0 := by
  unfold completeTask
  refine ⟨?_, ?_, ?_⟩
  · cases host <;> rfl
  · simp [Effect.isFallback]
  · simp [Effect.isFallback]

/-- C10: the isReadOnly value the hook exposes is determined solely by the
isReadOnly field of the last received envelope, and is false while no
envelope has arrived, in particular on the freshly mounted state; since the
equation holds for every trace, no local operation ever changes it. -/
theorem c10_isReadOnly_from_envelope (host : Bool) (d0 : ActionFormData)
    (g0 : SdkState) (es : List Event) :
    (run host (initState d0 g0) es).isReadOnly =
      ((lastEnvelope none es).bind (fun d => d.isReadOnly)).getD false ∧
    (initState d0 g0).isReadOnly = false := by
  constructor
  · unfold SessionState.isReadOnly
    rw [run_taskData]
    rfl
  · rfl

/-- C8 counterexample: after a successful completion (host attached), the
store is not read-only and a subsequent updateField still changes the
snapshot, so the claimed never-mutated-after-completion property fails. -/
theorem c8_post_completion_counterexample :
    (completeTask true startState "Approve").1.isReadOnly = false ∧
    (completeTask true startState "Approve").1.formData "comments" = none ∧
    (updateField true (completeTask true startState "Approve").1 "comments"
        (Value.str "post")).1.formData "comments" = some (Value.str "post") := by
  refine ⟨by decide, rfl, by decide⟩

/-- C8 amended: a completion call leaves the session state, and with it the
read-only flag, exactly as it was, and it installs no guard: any later
updateField still rewrites the snapshot.  Read-only can only ever come from
a host envelope. -/
theorem c8_post_completion_amended (host : Bool) (s : SessionState) (o : String)
    (k : String) (v : Value) :
    (completeTask host s o).1 = s ∧
    (completeTask host s o).1.isReadOnly = s.isReadOnly ∧
    (updateField host (completeTask host s o).1 k v).1.formData k = some v := by
  have h1 : (completeTask host s o).1 = s := completeTask_fst host s o
  refine ⟨h1, by rw [h1], ?_⟩
  rw [h1]
  simp [updateField, ActionFormData.set]

/-- C2 counterexample: in a state made read-only by a host envelope,
updateField still changes the snapshot and still sends a data-changed
notification, and updateFormData does the same, so the claimed read-only
no-op guard does not exist in the store. -/
theorem c2_readonly_guard_counterexample :
    roState.isReadOnly = true ∧
    roState.formData "comments" = none ∧
    (updateField true roState "comments" (Value.str "hi")).1.formData "comments" =
      some (Value.str "hi") ∧
    (updateField true roState "comments" (Value.str "hi")).2.length = 1 ∧
    (updateFormData true roState [("comments", Value.str "hi")]).1.formData "comments" =
      some (Value.str "hi") ∧
    (updateFormData true roState [("comments", Value.str "hi")]).2.length = 1 := by
  refine ⟨by decide, rfl, by decide, rfl, by decide, rfl⟩

/-- C2 amended: updateField and updateFormData never consult isReadOnly:
even in a read-only state they merge the write into the snapshot and hand
the full updated snapshot to the data-changed notification (delivered
whenever a host is attached).  Read-only is enforced only by the rendering
layer, which disables the controls. -/
theorem c2_readonly_guard_amended (host : Bool) (s : SessionState) (k : String)
    (v : Value) (upd : List (String × Value)) (h : s.isReadOnly = true) :
    (updateField host s k v).1.formData k = some v ∧
    (updateField host s k v).1.isReadOnly = true ∧
    (updateField host s k v).2 = notifyDataChanged host (s.formData.set k v) ∧
    (updateFormData host s upd).1.formData = s.formData.merge upd ∧
    (updateFormData host s upd).2 = notifyDataChanged host (s.formData.merge upd) := by
  refine ⟨?_, ?_, rfl, rfl, rfl⟩
  · simp [updateField, ActionFormData.set]
  · show s.isReadOnly = true
    exact h

/-- C2 amended witness at the concrete read-only state roState. -/
theorem c2_readonly_guard_amended_witness :
    (updateField true roState "comments" (Value.str "hi")).1.formData "comments" =
      some (Value.str "hi") ∧
    (updateField true roState "comments" (Value.str "hi")).1.isReadOnly = true ∧
    (updateField true roState "comments" (Value.str "hi")).2 =
      notifyDataChanged true (roState.formData.set "comments" (Value.str "hi")) ∧
    (updateFormData true roState [("x", Value.num 1)]).1.formData =
      roState.formData.merge [("x", Value.num 1)] ∧
    (updateFormData true roState [("x", Value.num 1)]).2 =
      notifyDataChanged true (roState.formData.merge [("x", Value.num 1)]) :=
  c2_readonly_guard_amended true roState "comments" (Value.str "hi")
    [("x", Value.num 1)] (by decide)

/-- C9: the mount effect is guarded by isInitializedRef, so on a fresh
session it registers the subscription and sends the ready signal once, a
second run of the effect changes nothing and emits nothing, and across both
runs each of the two calls happens at most once. -/
theorem c9_mount_idempotent (host : Bool) (s : SessionState)
    (h : s.isInitializedRef = false) :
    (mountEffect host s).2 = (if host then [Effect.subscribe, Effect.ready] else []) ∧
    mountEffect host (mountEffect host s).1 = ((mountEffect host s).1, []) ∧
    ((mountEffect host s).2 ++ (mountEffect host (mountEffect host s).1).2).countP
        Effect.isSubscribe ≤ 1 ∧
    ((mountEffect host s).2 ++ (mountEffect host (mountEffect host s).1).2).countP
        Effect.isReady ≤ 1 := by
  unfold mountEffect
  rw [h]
  cases host <;> simp [Effect.isSubscribe, Effect.isReady]

/-- C9 witness on the concrete fresh session with a host attached. -/
theorem c9_mount_idempotent_witness :
    (mountEffect true startState).2 =
      (if true then [Effect.subscribe, Effect.ready] else []) ∧
    mountEffect true (mountEffect true startState).1 =
      ((mountEffect true startState).1, []) :=
  ⟨(c9_mount_idempotent true startState rfl).1,
   (c9_mount_idempotent true startState rfl).2.1⟩

/-- C4: resetForm restores the snapshot most recently established at mount
or by a data-carrying host envelope — the last externally supplied baseline,
not necessarily the very first default — and re-triggers the outbound
data-changed notification with exactly that baseline (delivered whenever a
host is attached). -/
theorem c4_reset_restores_last_baseline (host : Bool) (d0 : ActionFormData)
    (g0 : SdkState) (es : List Event) :
    (resetForm host (run host (initState d0 g0) es)).1.formData = lastBaseline d0 es ∧
    (resetForm host (run host (initState d0 g0) es)).2 =
      (if host then [Effect.dataChanged (lastBaseline d0 es)] else []) := by
  have h : (run host (initState d0 g0) es).initialDataRef = lastBaseline d0 es := by
    rw [run_initialDataRef]
    rfl
  constructor
  · rw [resetForm_fst_formData, h]
  · show notifyDataChanged host (run host (initState d0 g0) es).initialDataRef = _
    rw [h, notifyDataChanged]

/-- C6: on every received envelope the SDK client is reinitialized (a fresh
client constructed, generation bumped, sdkInitialized raised) exactly when
all four of baseUrl, orgName, tenantName and token are truthy, so a partial
credential set triggers no initialization; and an envelope carrying a truthy
newToken without full credentials leaves the existing client in place with
only its secret replaced — no full reinitialization. -/
theorem c6_credentials_init_iff (d : ActionCenterData) (s : SessionState) :
    ((applyEnvelope d s).sdk.generation =
      s.sdk.generation + (if credsTruthy d then 1 else 0)) ∧
    ((applyEnvelope d s).sdk.sdkInitialized =
      (s.sdk.sdkInitialized || credsTruthy d)) ∧
    (∀ t, d.newToken = some t → t ≠ "" → credsTruthy d = false →
      (applyEnvelope d s).sdk =
        { s.sdk with config := { s.sdk.config with secret := t } }) := by
  simp only [applyEnvelope_sdk]
  unfold sdkAfterEnvelope
  refine ⟨?_, ?_, ?_⟩
  · rcases d.newToken with _ | t
    · by_cases hc : credsTruthy d <;> simp [hc, initializeSdk]
    · by_cases hc : credsTruthy d <;> by_cases ht : t = "" <;>
        simp [hc, ht, initializeSdk, updateToken]
  · rcases d.newToken with _ | t
    · by_cases hc : credsTruthy d <;> simp [hc, initializeSdk]
    · by_cases hc : credsTruthy d <;> by_cases ht : t = "" <;>
        simp [hc, ht, initializeSdk, updateToken]
  · intro t hnt ht hc
    simp [hnt, hc, ht, updateToken]

/-- C6 witness: a token-only envelope refreshes just the secret of the
existing client in place. -/
theorem c6_credentials_init_iff_witness :
    (applyEnvelope tokenEnvelope startState).sdk =
      { startState.sdk with config := { startState.sdk.config with secret := "t2" } } :=
  (c6_credentials_init_iff tokenEnvelope startState).2.2 "t2" rfl (by decide) rfl

/-- C7 counterexample: non-numeric text does not make the numeric control
refuse an update: the handler still calls onChange, with NaN, both for the
integer variant and for the floating-point variant, so the stored value is
not left unchanged. -/
theorem c7_nonnumeric_counterexample :
    numberControlChange false "abc" = some Value.nan ∧
    numberControlChange true "abc" = some Value.nan ∧
    numberControlChange false "abc" ≠ none := by
  refine ⟨by decide, by decide, by decide⟩

/-- C7 amended: the empty string emits the explicit undefined value, never 0;
the text 3.7 emits the whole number 3 in an integer field and the fraction
37/10 in a non-integer numeric field; non-numeric text emits NaN rather than
refusing the update; and the handler always emits a value and never throws
(it is a total function always returning an onChange call). -/
theorem c7_numeric_control_amended :
    numberControlChange true "" = some Value.undef ∧
    numberControlChange false "" = some Value.undef ∧
    numberControlChange true "" ≠ some (Value.num 0) ∧
    numberControlChange true "3.7" = some (Value.num 3) ∧
    numberControlChange false "3.7" = some (Value.num (37 / 10)) ∧
    numberControlChange true "abc" = some Value.nan ∧
    numberControlChange false "abc" = some Value.nan ∧
    ∀ (i : Bool) (v : String), (numberControlChange i v).isSome = true := by
  refine ⟨by decide, by decide, by decide, ?_, ?_, by decide, by decide, ?_⟩
  · simp [numberControlChange, parseIntJS, takeSign, takeDigits, digitsToNat]
  · simp [numberControlChange, parseFloatJS, takeSign, takeDigits, digitsToNat,
      expPart, expDigits]
    norm_num
  · intro i v
    unfold numberControlChange
    split
    · rfl
    · split <;> rfl

/-- C1: while the envelope callback runs, every observable state in which
hasActionCenterData reads true already shows the envelope form data, so no
observer can pair the raised flag with the pre-update values; the flag stays
down in every observable state but the final one, and the final state raises
it, so the flip is the last observable change of the operation. -/
theorem c1_hasHostData_flips_last (d : ActionCenterData) (s : SessionState)
    (h0 : s.hasActionCenterData = false) :
    (∀ o ∈ envelopeObservables d s, o.hasActionCenterData = true →
      o.formData = d.data.getD s.formData) ∧
    (∀ o ∈ (envelopeObservables d s).dropLast, o.hasActionCenterData = false) ∧
    (envelopeObservables d s).getLast? = some (applyEnvelope d s) ∧
    (applyEnvelope d s).hasActionCenterData = true := by
  have hobs : envelopeObservables d s = [s,
      stepTaskData d s,
      stepCreds d (stepTaskData d s),
      stepNewToken d (stepCreds d (stepTaskData d s)),
      stepTheme d (stepNewToken d (stepCreds d (stepTaskData d s))),
      stepLanguage d (stepTheme d (stepNewToken d (stepCreds d (stepTaskData d s)))),
      stepFormData d (stepLanguage d (stepTheme d (stepNewToken d
        (stepCreds d (stepTaskData d s))))),
      stepFlag (stepFormData d (stepLanguage d (stepTheme d (stepNewToken d
        (stepCreds d (stepTaskData d s))))))] := rfl
  refine ⟨?_, ?_, ?_, applyEnvelope_hasData d s⟩
  · intro o ho hflag
    rw [hobs] at ho
    simp only [List.mem_cons, List.not_mem_nil, or_false] at ho
    rcases ho with rfl | rfl | rfl | rfl | rfl | rfl | rfl | rfl <;> simp_all
  · intro o ho
    rw [hobs] at ho
    simp only [List.dropLast, List.mem_cons, List.not_mem_nil, or_false] at ho
    rcases ho with rfl | rfl | rfl | rfl | rfl | rfl | rfl <;> simp_all
  · rw [hobs]
    rfl

/-- C1 witness on a concrete data-carrying envelope over a fresh session. -/
theorem c1_hasHostData_flips_last_witness :
    (∀ o ∈ envelopeObservables aliceEnvelope startState,
      o.hasActionCenterData = true →
      o.formData = aliceEnvelope.data.getD startState.formData) ∧
    (∀ o ∈ (envelopeObservables aliceEnvelope startState).dropLast,
      o.hasActionCenterData = false) ∧
    (envelopeObservables aliceEnvelope startState).getLast? =
      some (applyEnvelope aliceEnvelope startState) ∧
    (applyEnvelope aliceEnvelope startState).hasActionCenterData = true :=
  c1_hasHostData_flips_last aliceEnvelope startState rfl

/-- Pointwise characterization of a fold of updateField calls. -/
theorem applyWrites_formData (host : Bool) (s : SessionState)
    (ws : List (String × Value)) (k : String) :
    (applyWrites host s ws).formData k = overlaySpec s.formData ws k := by
  induction ws using List.reverseRecOn with
  | nil => rfl
  | append_singleton ws p ih =>
    unfold applyWrites at ih ⊢
    unfold overlaySpec lastWrite at ih ⊢
    rw [List.foldl_append, List.foldl_append]
    simp only [List.foldl_cons, List.foldl_nil, updateField_fst_formData,
      ActionFormData.set]
    by_cases hk : p.1 = k
    · rw [if_pos hk, if_pos hk.symm]
    · rw [if_neg hk, if_neg (fun h => hk h.symm), ih]

/-- C3: for every sequence of setField calls performed while the store is
not read-only, the resulting snapshot is the starting snapshot overlaid with
the writes applied in order, last write winning per key, all other keys
untouched. -/
theorem c3_setField_last_write_wins (host : Bool) (s : SessionState)
    (ws : List (String × Value)) (_h : s.isReadOnly = false) :
    (applyWrites host s ws).formData = overlaySpec s.formData ws := by
  funext k
  exact applyWrites_formData host s ws k

/-- C3 witness on a concrete three-write sequence with a repeated key. -/
theorem c3_setField_last_write_wins_witness :
    startState.isReadOnly = false ∧
    (applyWrites true startState exampleWrites).formData =
      overlaySpec startState.formData exampleWrites :=
  ⟨rfl, c3_setField_last_write_wins true startState exampleWrites rfl⟩

end ActionApp
